import Mathlib

/-!
Verification of the PlaneStrike game engine
(`tfagents-flutter/step0/backend/planestrike_py_environment.py`).

The environment is embedded shallowly: NumPy boards become functions
`Int → Int → Int`, the implicit `random.randint` draws become explicit
parameters (an orientation in `Fin 4` and a core coordinate, with the
code's `randint` ranges stated as hypotheses), and the mutable
`PlaneStrikePyEnvironment` object becomes a `Session` record threaded
through explicit state-passing functions.  Fallible operations return
`Except String _`.
-/

namespace PlaneStrike

/-- `BOARD_SIZE = 8` — module-level constant of the source file. -/
def BOARD_SIZE : Int := 8

/-- `PLANE_SIZE = 8` — number of cells in each plane. -/
def PLANE_SIZE : Int := 8

/-- `MAX_STEPS_PER_EPISODE = BOARD_SIZE**2` — note this is the square of the
fixed module constant `BOARD_SIZE`, evaluated once at module load. -/
def MAX_STEPS_PER_EPISODE : Int := BOARD_SIZE ^ 2

def HIT_REWARD : Int := 1
def MISS_REWARD : Int := 0
def REPEAT_STRIKE_REWARD : Int := -1
def FINISHED_GAME_REWARD : Int := 10
def UNFINISHED_GAME_REWARD : Int := -10

def HIDDEN_BOARD_CELL_OCCUPIED : Int := 1
def HIDDEN_BOARD_CELL_UNOCCUPIED : Int := 0

def VISIBLE_BOARD_CELL_HIT : Int := 1
def VISIBLE_BOARD_CELL_MISS : Int := -1
def VISIBLE_BOARD_CELL_UNTRIED : Int := 0

/-- A square board, embedded as a total function on integer coordinates
(`board r c` is `board[r][c]`). -/
abbrev Board := Int → Int → Int

/-- One NumPy element assignment `b[r][c] = v`. -/
def setCell (b : Board) (r c v : Int) : Board :=
  fun r' c' => if r' = r ∧ c' = c then v else b r' c'

/-- `np.ones((n, n)) * HIDDEN_BOARD_CELL_UNOCCUPIED`: the all-unoccupied board. -/
def emptyHiddenBoard : Board := fun _ _ => HIDDEN_BOARD_CELL_UNOCCUPIED

/-- `initialize_random_hidden_board(board_size)` with the two
`random.randint` draws (`plane_orientation = random.randint(0, 3)` and the
core coordinates) made explicit parameters.  The body mirrors the source:
per orientation the three tail cells are written first, then the five
cross cells. -/
def initialize_random_hidden_board (board_size : Int) (plane_orientation : Fin 4)
    (plane_core_row plane_core_column : Int) : Board :=
  let _ := board_size
  let hidden_board := emptyHiddenBoard
  let hidden_board :=
    match plane_orientation with
    | 0 => -- PLANE_HEADING_RIGHT
        setCell
          (setCell
            (setCell hidden_board plane_core_row (plane_core_column - 2)
              HIDDEN_BOARD_CELL_OCCUPIED)
            (plane_core_row - 1) (plane_core_column - 2) HIDDEN_BOARD_CELL_OCCUPIED)
          (plane_core_row + 1) (plane_core_column - 2) HIDDEN_BOARD_CELL_OCCUPIED
    | 1 => -- PLANE_HEADING_UP
        setCell
          (setCell
            (setCell hidden_board (plane_core_row + 2) plane_core_column
              HIDDEN_BOARD_CELL_OCCUPIED)
            (plane_core_row + 2) (plane_core_column + 1) HIDDEN_BOARD_CELL_OCCUPIED)
          (plane_core_row + 2) (plane_core_column - 1) HIDDEN_BOARD_CELL_OCCUPIED
    | 2 => -- PLANE_HEADING_LEFT
        setCell
          (setCell
            (setCell hidden_board plane_core_row (plane_core_column + 2)
              HIDDEN_BOARD_CELL_OCCUPIED)
            (plane_core_row - 1) (plane_core_column + 2) HIDDEN_BOARD_CELL_OCCUPIED)
          (plane_core_row + 1) (plane_core_column + 2) HIDDEN_BOARD_CELL_OCCUPIED
    | 3 => -- PLANE_HEADING_DOWN
        setCell
          (setCell
            (setCell hidden_board (plane_core_row - 2) plane_core_column
              HIDDEN_BOARD_CELL_OCCUPIED)
            (plane_core_row - 2) (plane_core_column + 1) HIDDEN_BOARD_CELL_OCCUPIED)
          (plane_core_row - 2) (plane_core_column - 1) HIDDEN_BOARD_CELL_OCCUPIED
  setCell
    (setCell
      (setCell
        (setCell
          (setCell hidden_board plane_core_row plane_core_column
            HIDDEN_BOARD_CELL_OCCUPIED)
          (plane_core_row + 1) plane_core_column HIDDEN_BOARD_CELL_OCCUPIED)
        (plane_core_row - 1) plane_core_column HIDDEN_BOARD_CELL_OCCUPIED)
      plane_core_row (plane_core_column + 1) HIDDEN_BOARD_CELL_OCCUPIED)
    plane_core_row (plane_core_column - 1) HIDDEN_BOARD_CELL_OCCUPIED

/-- The `random.randint` ranges used by `initialize_random_hidden_board` for
the core cell of each orientation (both bounds inclusive, as in Python). -/
def validCore (board_size : Int) (o : Fin 4) (r c : Int) : Bool :=
  match o with
  | 0 => decide (1 ≤ r ∧ r ≤ board_size - 2 ∧ 2 ≤ c ∧ c ≤ board_size - 2)
  | 1 => decide (1 ≤ r ∧ r ≤ board_size - 3 ∧ 1 ≤ c ∧ c ≤ board_size - 3)
  | 2 => decide (1 ≤ r ∧ r ≤ board_size - 2 ∧ 1 ≤ c ∧ c ≤ board_size - 3)
  | 3 => decide (2 ≤ r ∧ r ≤ board_size - 2 ∧ 1 ≤ c ∧ c ≤ board_size - 2)

/-- The orientation templates of the design (§4.1): the five cross cells
(core plus four orthogonal neighbors) followed by the three tail cells of
the given orientation.  Written from the spec wording, to be compared with
the board the source code builds. -/
def planeCells (o : Fin 4) (r c : Int) : List (Int × Int) :=
  [(r, c), (r + 1, c), (r - 1, c), (r, c + 1), (r, c - 1)] ++
    (match o with
     | 0 => [(r - 1, c - 2), (r, c - 2), (r + 1, c - 2)]
     | 1 => [(r + 2, c - 1), (r + 2, c), (r + 2, c + 1)]
     | 2 => [(r - 1, c + 2), (r, c + 2), (r + 1, c + 2)]
     | 3 => [(r - 2, c - 1), (r - 2, c), (r - 2, c + 1)])

lemma setCell_occupied_iff (b : Board) (r c : Int) (l : List (Int × Int))
    (hb : ∀ q : Int × Int, b q.1 q.2 = HIDDEN_BOARD_CELL_OCCUPIED ↔ q ∈ l) :
    ∀ p : Int × Int,
      setCell b r c HIDDEN_BOARD_CELL_OCCUPIED p.1 p.2 = HIDDEN_BOARD_CELL_OCCUPIED ↔
        p ∈ (r, c) :: l := by
  intro p
  unfold setCell
  by_cases h : p.1 = r ∧ p.2 = c
  · simp only [h, if_pos, List.mem_cons]
    constructor
    · intro _
      left
      exact Prod.ext h.1 h.2
    · intro _
      rfl
  · rw [if_neg h, hb p, List.mem_cons]
    constructor
    · intro hm
      right
      exact hm
    · intro hm
      rcases hm with hm | hm
      · exact absurd ⟨congrArg Prod.fst hm, congrArg Prod.snd hm⟩ h
      · exact hm

/-- The generated hidden board marks exactly the template cells: a cell of
the board reads `occupied` iff it is one of the eight cells of
`planeCells` at the drawn orientation and core. -/
lemma hidden_board_occupied_iff (bs : Int) (o : Fin 4) (r c : Int) (p : Int × Int) :
    initialize_random_hidden_board bs o r c p.1 p.2 = HIDDEN_BOARD_CELL_OCCUPIED ↔
      p ∈ planeCells o r c := by
  have hempty : ∀ q : Int × Int,
      emptyHiddenBoard q.1 q.2 = HIDDEN_BOARD_CELL_OCCUPIED ↔ q ∈ ([] : List (Int × Int)) := by
    intro q
    simp [emptyHiddenBoard, HIDDEN_BOARD_CELL_OCCUPIED, HIDDEN_BOARD_CELL_UNOCCUPIED]
  fin_cases o <;>
    · simp only [initialize_random_hidden_board, planeCells]
      rw [setCell_occupied_iff _ _ _ _
            (setCell_occupied_iff _ _ _ _
              (setCell_occupied_iff _ _ _ _
                (setCell_occupied_iff _ _ _ _
                  (setCell_occupied_iff _ _ _ _
                    (setCell_occupied_iff _ _ _ _
                      (setCell_occupied_iff _ _ _ _
                        (setCell_occupied_iff _ _ _ _ hempty))))))) p]
      simp only [List.mem_cons, List.mem_append, List.mem_singleton, List.not_mem_nil, or_false]
      tauto

/-- The eight template cells are pairwise distinct, for every orientation
and core (over `Int` no range hypothesis is needed). -/
lemma planeCells_nodup (o : Fin 4) (r c : Int) : (planeCells o r c).Nodup := by
  fin_cases o <;>
    · simp only [planeCells, List.append_eq, List.cons_append, List.nil_append,
        List.nodup_cons, List.mem_cons, List.mem_singleton, List.not_mem_nil,
        List.nodup_nil, and_true, not_or, Prod.mk.injEq, not_and, true_implies,
        not_false_eq_true]
      omega

/-- The template has exactly 8 cells, counted as a set. -/
lemma planeCells_card (o : Fin 4) (r c : Int) : (planeCells o r c).toFinset.card = 8 := by
  rw [List.toFinset_card_of_nodup (planeCells_nodup o r c)]
  fin_cases o <;> rfl

/-- Under the source's `randint` ranges every template cell lies inside
`[0, board_size)` in both coordinates. -/
lemma planeCells_inbounds (bs : Int) (o : Fin 4) (r c : Int)
    (h : validCore bs o r c = true) :
    ∀ p ∈ planeCells o r c, 0 ≤ p.1 ∧ p.1 < bs ∧ 0 ≤ p.2 ∧ p.2 < bs := by
  fin_cases o <;>
    · simp only [validCore, decide_eq_true_eq] at h
      simp only [planeCells, List.append_eq, List.cons_append, List.nil_append,
        List.mem_cons, List.not_mem_nil, or_false, forall_eq_or_imp, forall_eq]
      omega

/-- One result of a `reset` or `step` call: the returned TF-Agents time
step, embedded as observation, reward, terminal flag and discount. -/
structure TimeStepResult where
  observation : Board
  reward : Int
  terminal : Bool
  discount : Rat

/-- The mutable state of a `PlaneStrikePyEnvironment` object. -/
structure Session where
  board_size : Int
  discount : Rat
  max_steps : Int
  strike_count : Int
  hit_count : Int
  episode_ended : Bool
  plane_size : Int
  hidden_board : Board
  visible_board : Board

/-- `set_boards(self)`: sets `_plane_size`, zeroes `_hit_count`, allocates an
all-zero visible board and generates a fresh hidden board.  The random draws
of the generator are explicit parameters. -/
def set_boards (s : Session) (o : Fin 4) (r c : Int) : Session :=
  { s with
    plane_size := PLANE_SIZE
    hit_count := 0
    visible_board := fun _ _ => 0
    hidden_board := initialize_random_hidden_board s.board_size o r c }

/-- `__init__(self, board_size, discount, max_steps)`: asserts
`board_size >= 4` (an `AssertionError`, embedded as `Except.error`), stores
the configuration, zeroes the counters and calls `set_boards`. -/
def init (board_size : Int) (discount : Rat) (max_steps : Int)
    (o : Fin 4) (r c : Int) : Except String Session :=
  if 4 ≤ board_size then
    .ok (set_boards
      { board_size := board_size
        discount := discount
        max_steps := max_steps
        strike_count := 0
        hit_count := 0
        episode_ended := false
        plane_size := 0
        hidden_board := fun _ _ => 0
        visible_board := fun _ _ => 0 } o r c)
  else
    .error "assert board_size >= 4"

/-- Calling the constructor without supplying `discount` and `max_steps`:
the Python default values are `discount=0.9` and
`max_steps=MAX_STEPS_PER_EPISODE`, the latter evaluated once from the
module constant `BOARD_SIZE`. -/
def init_default (board_size : Int) (o : Fin 4) (r c : Int) : Except String Session :=
  init board_size (9 / 10 : Rat) MAX_STEPS_PER_EPISODE o r c

/-- `_reset(self)`: clears the episode flag and both counters, rebuilds the
boards via `set_boards`, and returns `ts.restart(visible_board)` — a
time step with reward `0`, discount `1` and a non-terminal (FIRST) step
type. -/
def reset (s : Session) (o : Fin 4) (r c : Int) : TimeStepResult × Session :=
  let s := { s with episode_ended := false, strike_count := 0, hit_count := 0 }
  let s := set_boards s o r c
  ({ observation := s.visible_board, reward := 0, terminal := false, discount := 1 }, s)

/-- `render(self, mode)`: raises `ValueError` unless `mode == "human"`,
otherwise returns the current visible board.  The method reads but never
assigns any field, so the embedded state comes back unchanged. -/
def render (s : Session) (mode : String) : Except String Board × Session :=
  if mode ≠ "human" then
    (.error "Only rendering mode supported is human", s)
  else
    (.ok s.visible_board, s)

/-- Modelled from the spec: the termination check of §4.3 step 5, run after
the per-cell mutation.  `_step` in the source is an unimplemented TODO
stub, so the per-strike transition is taken from the design's
StrikeResolver contract.  If `hit_count = 8` the episode finishes with
bonus `FINISHED_GAME_REWARD`; else if `strike_count ≥ max_steps` it is
exhausted with `UNFINISHED_GAME_REWARD`; otherwise it continues with the
base reward alone and the configured discount. -/
def resolveTermination (s : Session) (base : Int) : TimeStepResult × Session :=
  if s.hit_count = 8 then
    let s := { s with episode_ended := true }
    ({ observation := s.visible_board, reward := base + FINISHED_GAME_REWARD,
       terminal := true, discount := 0 }, s)
  else if s.max_steps ≤ s.strike_count then
    let s := { s with episode_ended := true }
    ({ observation := s.visible_board, reward := base + UNFINISHED_GAME_REWARD,
       terminal := true, discount := 0 }, s)
  else
    ({ observation := s.visible_board, reward := base, terminal := false,
       discount := s.discount }, s)

/-- Modelled from the spec: the per-strike base reward of §4.3 steps 3–4,
before any termination bonus — `-1` for a repeat strike, `+1` for a first
strike on an occupied cell, `0` for a first strike on an empty cell. -/
def baseReward (s : Session) (action : Int) : Int :=
  if s.visible_board (action / s.board_size) (action % s.board_size) ≠
      VISIBLE_BOARD_CELL_UNTRIED then REPEAT_STRIKE_REWARD
  else if s.hidden_board (action / s.board_size) (action % s.board_size) =
      HIDDEN_BOARD_CELL_OCCUPIED then HIT_REWARD
  else MISS_REWARD

/-- Modelled from the spec: the per-strike transition of §4.2–§4.3
(`step`/StrikeResolver) — `_step` in the source is an unimplemented TODO
stub.  The action is validated against `[0, board_size² - 1]` first
(invalid-argument failure, §7, with no state change), then the
episode-ended guard of §4.2 applies (invalid-state failure); otherwise the
action decodes row-major, `strike_count` increments, the struck cell
resolves per §4.3 steps 3–4 and the termination check of step 5 runs. -/
def step (s : Session) (action : Int) : Except String (TimeStepResult × Session) :=
  if action < 0 ∨ s.board_size ^ 2 - 1 < action then
    .error "invalid action"
  else if s.episode_ended then
    .error "episode already ended; call reset first"
  else if s.visible_board (action / s.board_size) (action % s.board_size) ≠
      VISIBLE_BOARD_CELL_UNTRIED then
    .ok (resolveTermination
      { s with strike_count := s.strike_count + 1 } REPEAT_STRIKE_REWARD)
  else if s.hidden_board (action / s.board_size) (action % s.board_size) =
      HIDDEN_BOARD_CELL_OCCUPIED then
    .ok (resolveTermination
      { s with
        strike_count := s.strike_count + 1
        hit_count := s.hit_count + 1
        visible_board := setCell s.visible_board (action / s.board_size)
          (action % s.board_size) VISIBLE_BOARD_CELL_HIT }
      HIT_REWARD)
  else
    .ok (resolveTermination
      { s with
        strike_count := s.strike_count + 1
        visible_board := setCell s.visible_board (action / s.board_size)
          (action % s.board_size) VISIBLE_BOARD_CELL_MISS }
      MISS_REWARD)

/-- A concrete session used to instantiate the universally quantified
theorems below: board size 8, defaults, fresh boards, orientation RIGHT
with core `(1, 2)`. -/
def sampleSession : Session :=
  { board_size := 8
    discount := 9 / 10
    max_steps := 64
    strike_count := 0
    hit_count := 0
    episode_ended := false
    plane_size := 8
    hidden_board := initialize_random_hidden_board 8 0 1 2
    visible_board := fun _ _ => 0 }

/-- `sampleSession` after one miss has been recorded at cell `(0, 0)`. -/
def sampleSessionStruck : Session :=
  { sampleSession with
    strike_count := 1
    visible_board := setCell sampleSession.visible_board 0 0 VISIBLE_BOARD_CELL_MISS }

/-- Claim C1: for every board size at least 4 and every random draw inside
the generator's `randint` ranges, the hidden board produced by
`initialize_random_hidden_board` has exactly 8 occupied cells, those cells
are precisely the 5-cell cross plus 3-cell tail of the drawn orientation's
template, and every occupied cell lies inside `[0, board_size)` in both
coordinates. -/
theorem hidden_board_plane_invariant (bs : Int) (hbs : 4 ≤ bs) (o : Fin 4) (r c : Int)
    (hcore : validCore bs o r c = true) :
    (planeCells o r c).toFinset.card = 8 ∧
    (∀ p : Int × Int,
      initialize_random_hidden_board bs o r c p.1 p.2 = HIDDEN_BOARD_CELL_OCCUPIED ↔
        p ∈ planeCells o r c) ∧
    (∀ p ∈ planeCells o r c, 0 ≤ p.1 ∧ p.1 < bs ∧ 0 ≤ p.2 ∧ p.2 < bs) :=
  ⟨planeCells_card o r c, fun p => hidden_board_occupied_iff bs o r c p,
    planeCells_inbounds bs o r c hcore⟩

/-- Witness for C1: board size 8, orientation RIGHT, core `(1, 2)`. -/
theorem hidden_board_plane_invariant_witness :
    (4 : Int) ≤ 8 ∧ validCore 8 0 1 2 = true ∧
    ((planeCells 0 1 2).toFinset.card = 8 ∧
     (∀ p : Int × Int,
       initialize_random_hidden_board 8 0 1 2 p.1 p.2 = HIDDEN_BOARD_CELL_OCCUPIED ↔
         p ∈ planeCells 0 1 2) ∧
     (∀ p ∈ planeCells 0 1 2, 0 ≤ p.1 ∧ p.1 < 8 ∧ 0 ≤ p.2 ∧ p.2 < 8)) :=
  ⟨by decide, by decide, hidden_board_plane_invariant 8 (by decide) 0 1 2 (by decide)⟩

/-- Claim C4: `reset` zeroes both counters, clears the episode-ended flag,
installs an all-untried visible board and the freshly generated hidden
board, and returns the all-untried visible board as observation with
reward `0` and a non-terminal flag. -/
theorem reset_spec (s : Session) (o : Fin 4) (r c : Int) :
    (reset s o r c).2.strike_count = 0 ∧
    (reset s o r c).2.hit_count = 0 ∧
    (reset s o r c).2.episode_ended = false ∧
    (∀ r' c', (reset s o r c).2.visible_board r' c' = VISIBLE_BOARD_CELL_UNTRIED) ∧
    (reset s o r c).2.hidden_board = initialize_random_hidden_board s.board_size o r c ∧
    (reset s o r c).1.observation = (reset s o r c).2.visible_board ∧
    (∀ r' c', (reset s o r c).1.observation r' c' = VISIBLE_BOARD_CELL_UNTRIED) ∧
    (reset s o r c).1.reward = 0 ∧
    (reset s o r c).1.terminal = false :=
  ⟨rfl, rfl, rfl, fun _ _ => rfl, rfl, rfl, fun _ _ => rfl, rfl, rfl⟩

/-- Claim C5 counterexample: constructing with `board_size = 5` without
supplying `max_steps` yields `max_steps = 64` (the module constant
`BOARD_SIZE**2`), not `5² = 25` as the claim would require. -/
theorem init_default_max_steps_counterexample :
    (init_default 5 0 1 2).toOption.map Session.max_steps = some 64 ∧
    (init_default 5 0 1 2).toOption.map Session.max_steps ≠ some ((5 : Int) ^ 2) := by
  have h1 : (init_default 5 0 1 2).toOption.map Session.max_steps = some 64 := rfl
  refine ⟨h1, ?_⟩
  rw [h1]
  simp only [ne_eq, Option.some.injEq]
  norm_num

/-- Claim C5 amended: for every `board_size ≥ 4`, when `max_steps` is not
supplied its value is the module constant `MAX_STEPS_PER_EPISODE`, which
equals `BOARD_SIZE² = 64` — the square of the fixed default board size 8,
independent of the configured `board_size`. -/
theorem init_default_max_steps (bs : Int) (hbs : 4 ≤ bs) (o : Fin 4) (r c : Int) :
    ∃ s, init_default bs o r c = .ok s ∧ s.max_steps = MAX_STEPS_PER_EPISODE ∧
      MAX_STEPS_PER_EPISODE = BOARD_SIZE ^ 2 ∧ BOARD_SIZE = 8 := by
  unfold init_default init
  rw [if_pos hbs]
  exact ⟨_, rfl, rfl, rfl, rfl⟩

/-- Witness for the amended C5 at `board_size = 5`. -/
theorem init_default_max_steps_witness :
    (4 : Int) ≤ 5 ∧
    (∃ s, init_default 5 0 1 2 = .ok s ∧ s.max_steps = MAX_STEPS_PER_EPISODE ∧
      MAX_STEPS_PER_EPISODE = BOARD_SIZE ^ 2 ∧ BOARD_SIZE = 8) :=
  ⟨by decide, init_default_max_steps 5 (by decide) 0 1 2⟩

/-- Claim C7: the constructor fails (the `assert board_size >= 4` raises)
exactly when `board_size < 4`; for `board_size ≥ 4` it returns a session. -/
theorem init_board_size_check (bs : Int) (d : Rat) (ms : Int) (o : Fin 4) (r c : Int) :
    (∃ e, init bs d ms o r c = .error e) ↔ bs < 4 := by
  unfold init
  by_cases h : 4 ≤ bs
  · rw [if_pos h]
    simp only [reduceCtorEq, exists_false, false_iff, not_lt]
    exact h
  · rw [if_neg h]
    simp only [Except.error.injEq, exists_eq', true_iff]
    omega

/-- Claim C8: `render` returns the current visible board for mode
`"human"` and fails with a `ValueError` for every other mode. -/
theorem render_mode_check (s : Session) (mode : String) :
    (render s mode).1 =
      if mode = "human" then .ok s.visible_board
      else .error "Only rendering mode supported is human" := by
  unfold render
  by_cases h : mode = "human" <;> simp [h]

/-- Claim C10: `render` with mode `"human"` leaves the session — visible
board, hidden board, strike count, hit count and episode flag — exactly as
it was. -/
theorem render_frame (s : Session) :
    (render s "human").2 = s ∧
    (render s "human").2.visible_board = s.visible_board ∧
    (render s "human").2.hidden_board = s.hidden_board ∧
    (render s "human").2.strike_count = s.strike_count ∧
    (render s "human").2.hit_count = s.hit_count ∧
    (render s "human").2.episode_ended = s.episode_ended :=
  ⟨rfl, rfl, rfl, rfl, rfl, rfl⟩

/-- Claim C9: immediately after a successful construction — before any
reset or step — the session already has an all-untried visible board and a
hidden board with exactly the 8 template cells occupied, all in bounds,
because `__init__` itself calls `set_boards`. -/
theorem init_initial_state (bs : Int) (hbs : 4 ≤ bs) (d : Rat) (ms : Int)
    (o : Fin 4) (r c : Int) (hcore : validCore bs o r c = true) :
    ∃ s, init bs d ms o r c = .ok s ∧
      (∀ r' c', s.visible_board r' c' = VISIBLE_BOARD_CELL_UNTRIED) ∧
      (planeCells o r c).toFinset.card = 8 ∧
      (∀ p : Int × Int,
        s.hidden_board p.1 p.2 = HIDDEN_BOARD_CELL_OCCUPIED ↔ p ∈ planeCells o r c) ∧
      (∀ p ∈ planeCells o r c, 0 ≤ p.1 ∧ p.1 < bs ∧ 0 ≤ p.2 ∧ p.2 < bs) := by
  unfold init
  rw [if_pos hbs]
  exact ⟨_, rfl, fun _ _ => rfl, planeCells_card o r c,
    fun p => hidden_board_occupied_iff bs o r c p, planeCells_inbounds bs o r c hcore⟩

/-- Witness for C9: board size 8, defaults, orientation RIGHT, core `(1, 2)`. -/
theorem init_initial_state_witness :
    (4 : Int) ≤ 8 ∧ validCore 8 0 1 2 = true ∧
    (∃ s, init 8 (9 / 10) 64 0 1 2 = .ok s ∧
      (∀ r' c', s.visible_board r' c' = VISIBLE_BOARD_CELL_UNTRIED) ∧
      (planeCells 0 1 2).toFinset.card = 8 ∧
      (∀ p : Int × Int,
        s.hidden_board p.1 p.2 = HIDDEN_BOARD_CELL_OCCUPIED ↔ p ∈ planeCells 0 1 2) ∧
      (∀ p ∈ planeCells 0 1 2, 0 ≤ p.1 ∧ p.1 < 8 ∧ 0 ≤ p.2 ∧ p.2 < 8)) :=
  ⟨by decide, by decide, init_initial_state 8 (by decide) (9 / 10) 64 0 1 2 (by decide)⟩

/-- Claim C2: on a live session and an in-range action, the step ends the
episode exactly when the post-update hit count is 8 (reward = base + 10)
or, otherwise, when the post-update strike count reaches the budget
(reward = base − 10); in all other cases the reward is the base reward
alone, and the emitted terminal flag is true exactly on the two terminal
transitions.  The transition is modelled from the spec (§4.2–§4.3), the
source `_step` being a stub. -/
theorem step_termination (s : Session) (a : Int)
    (hended : s.episode_ended = false)
    (ha : 0 ≤ a ∧ a ≤ s.board_size ^ 2 - 1) :
    ∃ res s', step s a = .ok (res, s') ∧
      s'.strike_count = s.strike_count + 1 ∧
      (s'.episode_ended = true ↔ (s'.hit_count = 8 ∨ s.max_steps ≤ s'.strike_count)) ∧
      res.terminal = s'.episode_ended ∧
      res.reward = baseReward s a +
        (if s'.hit_count = 8 then FINISHED_GAME_REWARD
         else if s.max_steps ≤ s'.strike_count then UNFINISHED_GAME_REWARD else 0) := by
  have h1 : ¬(a < 0 ∨ s.board_size ^ 2 - 1 < a) := by omega
  have hend : ¬(s.episode_ended = true) := by simp [hended]
  unfold step resolveTermination baseReward
  rw [if_neg h1, if_neg hend]
  split_ifs with hv hterm1 hterm2 hh hterm3 hterm4 hterm5 hterm6 <;>
    refine ⟨_, _, rfl, rfl, ?_, ?_, ?_⟩ <;>
    simp_all

/-- Witness for C2: `sampleSession` striking cell `(0, 0)` (a miss, episode
continues). -/
theorem step_termination_witness :
    sampleSession.episode_ended = false ∧
    ((0 : Int) ≤ 0 ∧ (0 : Int) ≤ sampleSession.board_size ^ 2 - 1) ∧
    (∃ res s', step sampleSession 0 = .ok (res, s') ∧
      s'.strike_count = sampleSession.strike_count + 1 ∧
      (s'.episode_ended = true ↔
        (s'.hit_count = 8 ∨ sampleSession.max_steps ≤ s'.strike_count)) ∧
      res.terminal = s'.episode_ended ∧
      res.reward = baseReward sampleSession 0 +
        (if s'.hit_count = 8 then FINISHED_GAME_REWARD
         else if sampleSession.max_steps ≤ s'.strike_count then UNFINISHED_GAME_REWARD
         else 0)) :=
  ⟨rfl, by decide, step_termination sampleSession 0 rfl (by decide)⟩

/-- Claim C3: a strike on a cell that is already hit or miss yields base
reward `-1`, leaves the struck cell (indeed the whole visible board) and
the hit count unchanged, still increments the strike count, and still runs
the termination check.  Modelled from the spec (§4.3), the source `_step`
being a stub. -/
theorem step_repeat_strike (s : Session) (a : Int)
    (hended : s.episode_ended = false)
    (ha : 0 ≤ a ∧ a ≤ s.board_size ^ 2 - 1)
    (hrep : s.visible_board (a / s.board_size) (a % s.board_size) ≠
      VISIBLE_BOARD_CELL_UNTRIED) :
    ∃ res s', step s a = .ok (res, s') ∧
      baseReward s a = REPEAT_STRIKE_REWARD ∧
      s'.visible_board (a / s.board_size) (a % s.board_size) =
        s.visible_board (a / s.board_size) (a % s.board_size) ∧
      s'.visible_board = s.visible_board ∧
      s'.hit_count = s.hit_count ∧
      s'.strike_count = s.strike_count + 1 ∧
      res.reward = REPEAT_STRIKE_REWARD +
        (if s'.hit_count = 8 then FINISHED_GAME_REWARD
         else if s.max_steps ≤ s'.strike_count then UNFINISHED_GAME_REWARD else 0) ∧
      (res.terminal = true ↔ (s'.hit_count = 8 ∨ s.max_steps ≤ s'.strike_count)) := by
  have h1 : ¬(a < 0 ∨ s.board_size ^ 2 - 1 < a) := by omega
  have hend : ¬(s.episode_ended = true) := by simp [hended]
  unfold step resolveTermination baseReward
  rw [if_neg h1, if_neg hend, if_pos hrep]
  split_ifs with hterm1 hterm2 <;>
    refine ⟨_, _, rfl, rfl, rfl, rfl, rfl, rfl, ?_, ?_⟩ <;>
    simp_all

/-- Witness for C3: `sampleSessionStruck` re-striking the already-missed
cell `(0, 0)`. -/
theorem step_repeat_strike_witness :
    sampleSessionStruck.episode_ended = false ∧
    ((0 : Int) ≤ 0 ∧ (0 : Int) ≤ sampleSessionStruck.board_size ^ 2 - 1) ∧
    sampleSessionStruck.visible_board (0 / sampleSessionStruck.board_size)
      (0 % sampleSessionStruck.board_size) ≠ VISIBLE_BOARD_CELL_UNTRIED ∧
    (∃ res s', step sampleSessionStruck 0 = .ok (res, s') ∧
      baseReward sampleSessionStruck 0 = REPEAT_STRIKE_REWARD ∧
      s'.visible_board (0 / sampleSessionStruck.board_size)
          (0 % sampleSessionStruck.board_size) =
        sampleSessionStruck.visible_board (0 / sampleSessionStruck.board_size)
          (0 % sampleSessionStruck.board_size) ∧
      s'.visible_board = sampleSessionStruck.visible_board ∧
      s'.hit_count = sampleSessionStruck.hit_count ∧
      s'.strike_count = sampleSessionStruck.strike_count + 1 ∧
      res.reward = REPEAT_STRIKE_REWARD +
        (if s'.hit_count = 8 then FINISHED_GAME_REWARD
         else if sampleSessionStruck.max_steps ≤ s'.strike_count then
           UNFINISHED_GAME_REWARD
         else 0) ∧
      (res.terminal = true ↔
        (s'.hit_count = 8 ∨ sampleSessionStruck.max_steps ≤ s'.strike_count))) :=
  ⟨rfl, by decide, by decide,
    step_repeat_strike sampleSessionStruck 0 rfl (by decide) (by decide)⟩

/-- Claim C6: an action outside `[0, board_size² - 1]` makes `step` fail
with the invalid-argument error; the embedding passes state explicitly, so
the error branch returns no successor session and every field of the
caller's session is untouched.  Modelled from the spec (§4.3 step 1 and
§7), the source `_step` being a stub. -/
theorem step_invalid_action (s : Session) (a : Int)
    (ha : a < 0 ∨ s.board_size ^ 2 - 1 < a) :
    step s a = .error "invalid action" := by
  unfold step
  rw [if_pos ha]

/-- Witness for C6: `sampleSession` (board size 8) with the out-of-range
action 64. -/
theorem step_invalid_action_witness :
    ((64 : Int) < 0 ∨ sampleSession.board_size ^ 2 - 1 < 64) ∧
    step sampleSession 64 = .error "invalid action" :=
  ⟨by decide, step_invalid_action sampleSession 64 (by decide)⟩

end PlaneStrike
